import Mathlib

/-!
Verification development for the svc-gateway repository (src/src/app.js).

The gateway routes inbound HTTP requests under /api/* mount points to backend
services, enforcing a bearer-credential gate and a role gate, rewriting paths
and headers for the upstream, and recording Prometheus metrics.  We give a
shallow embedding of the routing table, the lecture-path classifier, the
proxy header/path rewriting of makeProxy, the metric event ordering, and the
eager environment validation, and prove the specified properties about them.
-/

namespace SvcGateway

/-- One matching step of substring search: does `needle` occur at the head of
`hay`?  Used to embed JavaScript case-sensitive substring containment. -/
def charsMatchAt : List Char → List Char → Bool
  | [], _ => true
  | _ :: _, [] => false
  | a :: as, b :: bs => a == b && charsMatchAt as bs

/-- JavaScript `String.prototype.includes`: case-sensitive substring
containment, as used by the /api/lectures classifier (app.js lines 154-160). -/
def includesSub (s sub : String) : Bool :=
  (List.range (s.data.length + 1)).any (fun i => charsMatchAt sub.data (s.data.drop i))

/-- Number of positions of `s` at which the substring `sub` occurs. -/
def countSub (s sub : String) : Nat :=
  (List.range (s.data.length + 1)).countP (fun i => charsMatchAt sub.data (s.data.drop i))

/-- A proxy middleware as configured by `makeProxy(target, serviceName,
upstreamPrefix, opts)` (app.js lines 92-122): which env var supplies the base
URL, the metrics `service` label, the optional upstream path prefix
(`upstreamPre`), and whether `opts.internalToken` is supplied (only the forum
proxy passes one, app.js lines 128-130). -/
structure ProxySpec where
  urlVar : String
  service : String
  upstreamPre : Option String
  hasInternalToken : Bool
deriving DecidableEq

/-- `coursesProxy` (app.js line 124). -/
def coursesProxy : ProxySpec := ⟨"COURSES_URL", "courses", some "/api/courses", false⟩

/-- `lecturesProxy` (app.js line 125): default lectures backend is the courses service. -/
def lecturesProxy : ProxySpec := ⟨"COURSES_URL", "courses", some "/api/lectures", false⟩

/-- `notesProxy` (app.js line 126). -/
def notesProxy : ProxySpec := ⟨"NOTES_URL", "notes", some "/api/lectures", false⟩

/-- `usersProxy` (app.js line 127). -/
def usersProxy : ProxySpec := ⟨"USERS_URL", "users", some "/api/users", false⟩

/-- `forumProxy` (app.js lines 128-130): the only proxy constructed with
`internalToken: FORUM_INTERNAL_TOKEN`. -/
def forumProxy : ProxySpec := ⟨"FORUM_URL", "forum", some "/api", true⟩

/-- `transcriptionsProxy` (app.js line 131): no upstream path prefix. -/
def transcriptionsProxy : ProxySpec := ⟨"TRANSCRIPTIONS_URL", "transcriptions", none, false⟩

/-- `videoUploadProxy` (app.js line 134): no upstream path prefix. -/
def videoUploadProxy : ProxySpec := ⟨"VIDEO_UPLOAD_URL", "video-upload", none, false⟩

/-- `uploadsProxy` (app.js line 135). -/
def uploadsProxy : ProxySpec := ⟨"VIDEO_UPLOAD_URL", "video-upload", some "/api/uploads", false⟩

/-- `videosProxy` (app.js line 136). -/
def videosProxy : ProxySpec := ⟨"VIDEO_UPLOAD_URL", "video-upload", some "/api/videos", false⟩

/-- The content-based classifier mounted at /api/lectures (app.js lines
153-164): the sub-path (after Express strips the mount point) is checked for
substrings in order `/upload`, `/notes`, `/transcribe`, with the default
lectures backend as fallback. -/
def classifyLecturePath (path : String) : ProxySpec :=
  if includesSub path "/upload" then videoUploadProxy
  else if includesSub path "/notes" then notesProxy
  else if includesSub path "/transcribe" then transcriptionsProxy
  else lecturesProxy

/-- The `pathRewrite` option of `makeProxy` in the main variant (app.js line
97): when an upstream path prefix is configured, it is prepended to the
already-stripped sub-path; otherwise the path is forwarded unchanged. -/
def pathRewrite (upstreamPre : Option String) (path : String) : String :=
  match upstreamPre with
  | some pre => pre ++ path
  | none => path

/-- The `pathRewrite` of the second variant (app.js line 259):
`(path, req) => req.baseUrl + path`, echoing back the mount point. -/
def pathRewriteByBaseUrl (baseUrl path : String) : String :=
  baseUrl ++ path

/-- The identity attached to the request context by the auth gate
(`req.user`): a subject and an optional role. -/
structure Identity where
  sub : String
  role : Option String
deriving DecidableEq

/-- JavaScript string truthiness: a string is truthy iff it is non-empty.
Embeds the guards `if (req.user?.sub)` and `if (opts.internalToken)`. -/
def truthy (s : String) : Bool := !(s == "")

/-- Node `setHeader`: replaces any existing header of that name. -/
def setHeader (hs : List (String × String)) (name value : String) : List (String × String) :=
  hs.filter (fun h => !(h.1 == name)) ++ [(name, value)]

/-- Header lookup on a forwarded request. -/
def getHeader (hs : List (String × String)) (name : String) : Option String :=
  (hs.find? (fun h => h.1 == name)).map (fun h => h.2)

/-- The header mutation performed by the `proxyReq` handler of `makeProxy`
(app.js lines 100-109) on the outbound request.  The proxy copies all inbound
headers; then, if a user with a truthy `sub` is attached, `x-user-sub` is set,
and if `opts.internalToken` is truthy, `x-internal-token` is set (overwriting
any inbound value).  For proxies built without `opts.internalToken`
(`internalToken = none` here) the inbound `x-internal-token` is left as-is. -/
def buildProxyHeaders (internalToken : Option String) (user : Option Identity)
    (inbound : List (String × String)) : List (String × String) :=
  let hs1 :=
    match user with
    | some u => if truthy u.sub then setHeader inbound "x-user-sub" u.sub else inbound
    | none => inbound
  match internalToken with
  | some tok => if truthy tok then setHeader hs1 "x-internal-token" tok else hs1
  | none => hs1

/-- The events of one proxied request's lifecycle, for the metrics-ordering
property. -/
inductive MetricEvent where
  | recordStart
  | counterInc (service method : String)
  | setForwardHeaders
  | forward
  | responseHeaders (statusCode : Nat)
  | observeHistogram (service method : String) (statusCode : Nat)
  | bodyEnd
deriving DecidableEq

/-- The event trace of one dispatched request through `makeProxy` (app.js
lines 100-119): the `proxyReq` handler records the start time, increments the
per-service counter and sets the forwarded headers, then the request is
forwarded; the `proxyRes` handler fires when the upstream response headers
arrive — before the body finishes streaming to the client — and observes the
duration histogram labelled by service, method and upstream status code. -/
def proxyLifecycle (service method : String) (statusCode : Nat) : List MetricEvent :=
  [MetricEvent.recordStart,
   MetricEvent.counterInc service method,
   MetricEvent.setForwardHeaders,
   MetricEvent.forward,
   MetricEvent.responseHeaders statusCode,
   MetricEvent.observeHistogram service method statusCode,
   MetricEvent.bodyEnd]

/-- `a` occurs strictly before `b` wherever both occur in the trace. -/
def eventsOrdered (tr : List MetricEvent) (a b : MetricEvent) : Prop :=
  ∀ i j, tr.get? i = some a → tr.get? j = some b → i < j

/-- The `env(name, fallback)` helper (app.js lines 11-18): an environment
variable that is absent or the empty string falls back to the default, and
raises `Missing env: <name>` when no default is given.  The process
environment is modelled as a partial map. -/
def env (e : String → Option String) (name : String) (fallback : Option String) :
    Except String String :=
  match e name with
  | none =>
    match fallback with
    | none => Except.error ("Missing env: " ++ name)
    | some f => Except.ok f
  | some raw =>
    if raw == "" then
      match fallback with
      | none => Except.error ("Missing env: " ++ name)
      | some f => Except.ok f
    else Except.ok raw

/-- The configuration read at startup (app.js lines 20-28). -/
structure Config where
  port : String
  coursesUrl : String
  notesUrl : String
  usersUrl : String
  transcriptionsUrl : String
  videoUploadUrl : String
  forumUrl : String
  forumInternalToken : String
deriving DecidableEq

/-- The eager startup configuration reads (app.js lines 20-28), in source
order.  Each required read raises on an absent or empty variable, so the
whole load fails before the app is constructed or any request is served. -/
def loadConfig (e : String → Option String) : Except String Config := do
  let port ← env e "PORT" (some "3000")
  let courses ← env e "COURSES_URL" none
  let notes ← env e "NOTES_URL" none
  let users ← env e "USERS_URL" none
  let transcriptions ← env e "TRANSCRIPTIONS_URL" none
  let videoUpload ← env e "VIDEO_UPLOAD_URL" none
  let forum ← env e "FORUM_URL" none
  let forumToken ← env e "FORUM_INTERNAL_TOKEN" none
  return ⟨port, courses, notes, users, transcriptions, videoUpload, forum, forumToken⟩

/-- The environment variables read without a fallback (app.js lines 22-28). -/
def requiredEnvVars : List String :=
  ["COURSES_URL", "NOTES_URL", "USERS_URL", "TRANSCRIPTIONS_URL",
   "VIDEO_UPLOAD_URL", "FORUM_URL", "FORUM_INTERNAL_TOKEN"]

/-- An inbound HTTP request as the routing layer sees it: method, the full
request path split into segments, and the optional bearer credential. -/
structure Request where
  method : String
  segments : List String
  cred : Option String

/-- Modelled from the spec: `requireAuth` lives in src/auth.js, which is not
part of src/.  Per the spec (§4.1, §6), the gate verifies the
`Authorization: Bearer <token>` credential and yields an Identity; a missing
or invalid credential fails with Unauthenticated (401).  Verification is
modelled as lookup in a table of valid tokens. -/
def authenticate (tokens : List (String × Identity)) (cred : Option String) :
    Option Identity :=
  match cred with
  | none => none
  | some t => (tokens.find? (fun p => p.1 == t)).map (fun p => p.2)

/-- The mutating methods subject to the role gate (spec §4.1). -/
def writeMethods : List String := ["POST", "PUT", "PATCH", "DELETE"]

/-- Modelled from the spec: `requireRoleForWrite` lives in src/auth.js, which
is not part of src/.  Per the spec (§4.1), the role requirement is evaluated
only for POST/PUT/PATCH/DELETE; a mismatched or absent role on a write fails
with Forbidden (403), and safe read methods pass without the role. -/
def roleAllowed (required : String) (id : Identity) (method : String) : Bool :=
  if writeMethods.contains method then id.role == some required else true

/-- One `app.use(mountPoint, ...)` registration: the mount-point path
segments, whether `requireAuth()` is in the chain, the
`requireRoleForWrite(role)` argument if present, and the proxy resolved from
the sub-path (a classifier only for /api/lectures). -/
structure RouteMount where
  mountSegs : List String
  requiresAuth : Bool
  roleForWrite : Option String
  handler : List String → ProxySpec

/-- Does the mount point match the request path (Express `app.use` matching
on whole path segments)? -/
def segMatches : List String → List String → Bool
  | [], _ => true
  | _ :: _, [] => false
  | a :: as, b :: bs => a == b && segMatches as bs

/-- Rebuild the sub-path string Express hands to a mounted handler as
`req.path` from the remaining segments. -/
def subPathOf (segs : List String) : String :=
  String.join (segs.map (fun s => "/" ++ s))

/-- The gateway routing table, in registration order (app.js lines 145-181).
Note that /api/transcriptions is registered twice (lines 170 and 175) and
that /api/videos is the only mount without `requireAuth()` (line 178). -/
def gatewayMounts : List RouteMount :=
  [⟨["api", "courses"], true, some "professor", fun _ => coursesProxy⟩,
   ⟨["api", "lectures"], true, none, fun subSegs => classifyLecturePath (subPathOf subSegs)⟩,
   ⟨["api", "uploads"], true, none, fun _ => uploadsProxy⟩,
   ⟨["api", "transcriptions"], true, none, fun _ => transcriptionsProxy⟩,
   ⟨["api", "users"], true, none, fun _ => usersProxy⟩,
   ⟨["api", "transcriptions"], true, none, fun _ => transcriptionsProxy⟩,
   ⟨["api", "videos"], false, none, fun _ => videosProxy⟩,
   ⟨["api", "forum"], true, none, fun _ => forumProxy⟩]

/-- Express dispatch picks the first matching registration. -/
def findMount (mounts : List RouteMount) (segs : List String) : Option RouteMount :=
  mounts.find? (fun m => segMatches m.mountSegs segs)

/-- Index of the first matching registration. -/
def findMountIdxAux : List RouteMount → List String → Nat → Option Nat
  | [], _, _ => none
  | m :: ms, segs, i =>
    if segMatches m.mountSegs segs then some i else findMountIdxAux ms segs (i + 1)

/-- Index of the first matching registration in the routing table. -/
def findMountIdx (mounts : List RouteMount) (segs : List String) : Option Nat :=
  findMountIdxAux mounts segs 0

/-- The per-service proxied-request counters, keyed by (service, method)
label pairs as in `proxiedCounter` (app.js lines 68-72). -/
abbrev Counters := List ((String × String) × Nat)

/-- Read one labelled counter (0 when never incremented). -/
def getC (cs : Counters) (k : String × String) : Nat :=
  match cs with
  | [] => 0
  | p :: ps => if p.1 == k then p.2 else getC ps k

/-- `proxiedCounter.inc({service, method})` (app.js line 102). -/
def incC (cs : Counters) (k : String × String) : Counters :=
  match cs with
  | [] => [(k, 1)]
  | p :: ps => if p.1 == k then (p.1, p.2 + 1) :: ps else p :: incC ps k

/-- Sum of all counters. -/
def totalC (cs : Counters) : Nat :=
  match cs with
  | [] => 0
  | p :: ps => p.2 + totalC ps

/-- Run one matched registration's middleware chain (app.js lines 145-181):
the auth gate first (when present), then the role gate (when configured),
then the proxy, which resolves the target from the sub-path, increments the
per-service counter and relays the upstream's status.  Gate failures
short-circuit with 401/403 and leave the counters untouched. -/
def runMount (tokens : List (String × Identity)) (upstreamStatus : Nat)
    (m : RouteMount) (req : Request) (cs : Counters) : Nat × Counters :=
  let subSegs := req.segments.drop m.mountSegs.length
  let proxyStep : Nat × Counters :=
    (upstreamStatus, incC cs ((m.handler subSegs).service, req.method))
  if m.requiresAuth then
    match authenticate tokens req.cred with
    | none => (401, cs)
    | some id =>
      match m.roleForWrite with
      | some role =>
        if roleAllowed role id req.method then proxyStep else (403, cs)
      | none => proxyStep
  else proxyStep

/-- Dispatch one inbound request through the routing table: the first
matching registration handles it (404 when none matches), producing exactly
one terminal status and the updated counters. -/
def gatewayDispatch (tokens : List (String × Identity)) (upstreamStatus : Nat)
    (req : Request) (cs : Counters) : Nat × Counters :=
  match findMount gatewayMounts req.segments with
  | none => (404, cs)
  | some m => runMount tokens upstreamStatus m req cs

/-- Is the first matching registration for this path gated by
`requireAuth()`? -/
def isGated (segs : List String) : Bool :=
  match findMount gatewayMounts segs with
  | some m => m.requiresAuth
  | none => false

/-- The running gateway only exists once `loadConfig` succeeded (app.js reads
all configuration at module top level, before `app.listen`): serving a
request is undefined when startup failed. -/
def serveRequest (started : Except String Config)
    (tokens : List (String × Identity)) (upstreamStatus : Nat)
    (req : Request) (cs : Counters) : Option (Nat × Counters) :=
  match started with
  | Except.error _ => none
  | Except.ok _ => some (gatewayDispatch tokens upstreamStatus req cs)

/-- Did an `Except` computation succeed? -/
def exceptOk {α : Type} (x : Except String α) : Bool :=
  match x with
  | Except.ok _ => true
  | Except.error _ => false

/-! ## Theorems -/

/-- C1: For every request under the shared /api/lectures mount, the backend
is resolved by case-sensitive substring containment on the sub-path, checked
in the fixed priority order: a path containing `/upload` resolves to the
video-upload backend, else `/notes` to the notes backend, else `/transcribe`
to the transcriptions backend, else the default courses/lectures backend;
first match wins, so a path containing both `/notes` and `/upload` resolves
to the video-upload backend. -/
theorem lectures_classifier_priority (path : String) :
    (includesSub path "/upload" = true →
      classifyLecturePath path = videoUploadProxy) ∧
    (includesSub path "/upload" = false → includesSub path "/notes" = true →
      classifyLecturePath path = notesProxy) ∧
    (includesSub path "/upload" = false → includesSub path "/notes" = false →
      includesSub path "/transcribe" = true →
      classifyLecturePath path = transcriptionsProxy) ∧
    (includesSub path "/upload" = false → includesSub path "/notes" = false →
      includesSub path "/transcribe" = false →
      classifyLecturePath path = lecturesProxy) ∧
    (includesSub path "/notes" = true → includesSub path "/upload" = true →
      classifyLecturePath path = videoUploadProxy) := by
  refine ⟨fun h1 => ?_, fun h1 h2 => ?_, fun h1 h2 h3 => ?_, fun h1 h2 h3 => ?_,
    fun h1 h2 => ?_⟩ <;>
    simp_all [classifyLecturePath]

/-- Witness for C1 at concrete sub-paths, including one containing both
`/notes` and `/upload`. -/
theorem lectures_classifier_priority_witness :
    classifyLecturePath "/7/notes/upload" = videoUploadProxy ∧
    classifyLecturePath "/7/notes" = notesProxy ∧
    classifyLecturePath "/7/transcribe" = transcriptionsProxy ∧
    classifyLecturePath "/7" = lecturesProxy :=
  ⟨(lectures_classifier_priority "/7/notes/upload").2.2.2.2 (by decide) (by decide),
   (lectures_classifier_priority "/7/notes").2.1 (by decide) (by decide),
   (lectures_classifier_priority "/7/transcribe").2.2.1 (by decide) (by decide) (by decide),
   (lectures_classifier_priority "/7").2.2.2.1 (by decide) (by decide) (by decide)⟩

/-- C5: Forwarding to the courses target, configured with upstream path
prefix /api/courses, with inbound sub-path /42 yields upstream request path
/api/courses/42 with the prefix applied exactly once (the substring
/api/courses occurs at exactly one position) — in both pathRewrite variants. -/
theorem path_rewrite_single_application :
    pathRewrite coursesProxy.upstreamPre "/42" = "/api/courses/42" ∧
    pathRewriteByBaseUrl "/api/courses" "/42" = "/api/courses/42" ∧
    countSub "/api/courses/42" "/api/courses" = 1 := by
  decide

/-- C7: For every dispatched request, the metric events occur in the fixed
order: the per-service counter increment and the start-time record happen at
dispatch time, before forwarding; the duration histogram — labelled by
service, method and upstream status code — is observed when the upstream
response headers arrive, before the body finishes streaming. -/
theorem metrics_event_ordering (service method : String) (statusCode : Nat) :
    eventsOrdered (proxyLifecycle service method statusCode)
      (MetricEvent.counterInc service method) MetricEvent.forward ∧
    eventsOrdered (proxyLifecycle service method statusCode)
      MetricEvent.recordStart MetricEvent.forward ∧
    eventsOrdered (proxyLifecycle service method statusCode)
      (MetricEvent.responseHeaders statusCode)
      (MetricEvent.observeHistogram service method statusCode) ∧
    eventsOrdered (proxyLifecycle service method statusCode)
      (MetricEvent.observeHistogram service method statusCode) MetricEvent.bodyEnd ∧
    MetricEvent.observeHistogram service method statusCode ∈
      proxyLifecycle service method statusCode := by
  refine ⟨?_, ?_, ?_, ?_, ?_⟩
  all_goals
    first
    | (intro i j hi hj
       rcases i with _|_|_|_|_|_|_|i <;> rcases j with _|_|_|_|_|_|_|j <;>
         simp_all [proxyLifecycle])
    | simp [proxyLifecycle]

/-- Witness for C7 at a concrete request: the counter increment (index 1)
precedes the forward (index 3), and the labelled histogram observation occurs
in the trace. -/
theorem metrics_event_ordering_witness :
    (1 : Nat) < 3 ∧
    MetricEvent.observeHistogram "courses" "GET" 200 ∈ proxyLifecycle "courses" "GET" 200 :=
  ⟨(metrics_event_ordering "courses" "GET" 200).1 1 3 (by decide) (by decide),
   (metrics_event_ordering "courses" "GET" 200).2.2.2.2⟩

/-- After `setHeader`, the header reads back as the value just set. -/
theorem getHeader_setHeader_same (hs : List (String × String)) (name value : String) :
    getHeader (setHeader hs name value) name = some value := by
  have hnone : List.find? (fun h => h.1 == name)
      (hs.filter (fun h => !(h.1 == name))) = none := by
    rw [List.find?_eq_none]
    intro x hx
    have := (List.mem_filter.mp hx).2
    simp_all
  unfold getHeader setHeader
  rw [List.find?_append, hnone]
  simp

/-- `setHeader` leaves headers of other names unchanged. -/
theorem getHeader_setHeader_other (hs : List (String × String))
    (name value other : String) (hne : other ≠ name) :
    getHeader (setHeader hs name value) other = getHeader hs other := by
  have hfilter : List.find? (fun h => h.1 == other)
      (hs.filter (fun h => !(h.1 == name))) = List.find? (fun h => h.1 == other) hs := by
    induction hs with
    | nil => rfl
    | cons p ps ih =>
      by_cases hpn : p.1 = name
      · rw [List.filter_cons_of_neg (by simp [hpn]),
          @List.find?_cons_of_neg _ (fun h => h.1 == other) p _
            (by simp [hpn, Ne.symm hne]), ih]
      · by_cases hpo : ((fun h : String × String => h.1 == other) p) = true
        · rw [List.filter_cons_of_pos (by simp [hpn]),
            @List.find?_cons_of_pos _ (fun h => h.1 == other) p _ hpo,
            @List.find?_cons_of_pos _ (fun h => h.1 == other) p _ hpo]
        · rw [List.filter_cons_of_pos (by simp [hpn]),
            @List.find?_cons_of_neg _ (fun h => h.1 == other) p _ hpo,
            @List.find?_cons_of_neg _ (fun h => h.1 == other) p _ hpo, ih]
  have hlast : List.find? (fun h : String × String => h.1 == other) [(name, value)] = none := by
    simp [Ne.symm hne]
  unfold getHeader setHeader
  rw [List.find?_append, hfilter, hlast, Option.or_none]

/-- C2 as stated is false on the code: the courses proxy (like every proxy
except the forum one) is built without `opts.internalToken`, so a
client-supplied x-internal-token header passes through to the upstream
unchanged — the upstream receives exactly the external client's value. -/
theorem internal_token_passthrough_counterexample :
    coursesProxy.hasInternalToken = false ∧
    getHeader (buildProxyHeaders none none [("x-internal-token", "client-forged")])
      "x-internal-token" = some "client-forged" := by
  decide

/-- C2 (amended): for every proxied request to a target configured with a
(non-empty) internal token — only the forum proxy — the upstream receives
exactly the gateway-configured token, overwriting any client-supplied value;
targets without a configured internal token forward the inbound header
untouched. -/
theorem internal_token_overwrite_when_configured
    (tok : String) (user : Option Identity) (inbound : List (String × String))
    (hne : tok ≠ "") :
    forumProxy.hasInternalToken = true ∧
    getHeader (buildProxyHeaders (some tok) user inbound) "x-internal-token" = some tok ∧
    getHeader (buildProxyHeaders none user inbound) "x-internal-token" =
      getHeader inbound "x-internal-token" := by
  have ht : truthy tok = true := by simp [truthy, hne]
  refine ⟨rfl, ?_, ?_⟩
  · cases user with
    | none => simp [buildProxyHeaders, ht, getHeader_setHeader_same]
    | some u =>
      by_cases hu : truthy u.sub <;>
        simp [buildProxyHeaders, ht, hu, getHeader_setHeader_same]
  · cases user with
    | none => simp [buildProxyHeaders]
    | some u =>
      by_cases hu : truthy u.sub
      · simp only [buildProxyHeaders, hu, if_pos]
        exact getHeader_setHeader_other inbound "x-user-sub" u.sub "x-internal-token"
          (by decide)
      · simp [buildProxyHeaders, hu]

/-- Witness for the amended C2 at a concrete forwarded request carrying a
forged inbound header. -/
theorem internal_token_overwrite_when_configured_witness :
    forumProxy.hasInternalToken = true ∧
    getHeader (buildProxyHeaders (some "shared-secret") none
      [("x-internal-token", "client-forged")]) "x-internal-token" = some "shared-secret" ∧
    getHeader (buildProxyHeaders none none [("x-internal-token", "client-forged")])
      "x-internal-token" =
      getHeader [("x-internal-token", "client-forged")] "x-internal-token" :=
  internal_token_overwrite_when_configured "shared-secret" none
    [("x-internal-token", "client-forged")] (by decide)

/-- C8 as stated is false on the code: `if (req.user?.sub)` uses JavaScript
truthiness, so an attached identity whose subject is the empty string injects
no x-user-sub header even though an identity is present on the request
context. -/
theorem user_sub_empty_subject_counterexample :
    (some (Identity.mk "" none)).isSome = true ∧
    getHeader (buildProxyHeaders none (some (Identity.mk "" none)) []) "x-user-sub" = none := by
  decide

/-- C8 (amended): the gateway sets x-user-sub to the identity's subject
exactly when an attached identity has a non-empty (truthy) subject; when no
identity is attached, or the subject is empty, the gateway injects nothing
and any inbound x-user-sub value passes through unchanged. -/
theorem user_sub_header_injection
    (tok : Option String) (u : Identity) (inbound : List (String × String)) :
    (u.sub ≠ "" →
      getHeader (buildProxyHeaders tok (some u) inbound) "x-user-sub" = some u.sub) ∧
    (u.sub = "" →
      getHeader (buildProxyHeaders tok (some u) inbound) "x-user-sub" =
        getHeader inbound "x-user-sub") ∧
    getHeader (buildProxyHeaders tok none inbound) "x-user-sub" =
      getHeader inbound "x-user-sub" := by
  have hother : ∀ hs : List (String × String), ∀ t : String,
      getHeader (setHeader hs "x-internal-token" t) "x-user-sub" = getHeader hs "x-user-sub" :=
    fun hs t => getHeader_setHeader_other hs "x-internal-token" t "x-user-sub" (by decide)
  refine ⟨fun hu => ?_, fun hu => ?_, ?_⟩
  · have ht : truthy u.sub = true := by simp [truthy, hu]
    cases tok with
    | none => simp [buildProxyHeaders, ht, getHeader_setHeader_same]
    | some t =>
      by_cases htok : truthy t <;>
        simp [buildProxyHeaders, ht, htok, hother, getHeader_setHeader_same]
  · have ht : truthy u.sub = false := by simp [truthy, hu]
    cases tok with
    | none => simp [buildProxyHeaders, ht]
    | some t =>
      by_cases htok : truthy t <;> simp [buildProxyHeaders, ht, htok, hother]
  · cases tok with
    | none => simp [buildProxyHeaders]
    | some t =>
      by_cases htok : truthy t <;> simp [buildProxyHeaders, htok, hother]

/-- Witness for the amended C8 at concrete requests: a non-empty subject is
propagated, and with no identity the gateway adds nothing. -/
theorem user_sub_header_injection_witness :
    getHeader (buildProxyHeaders none (some (Identity.mk "alice" none)) []) "x-user-sub" =
      some "alice" ∧
    getHeader (buildProxyHeaders none none [("a", "b")]) "x-user-sub" =
      getHeader [("a", "b")] "x-user-sub" :=
  ⟨(user_sub_header_injection none (Identity.mk "alice" none) []).1 (by decide),
   (user_sub_header_injection none (Identity.mk "alice" none) [("a", "b")]).2.2⟩

/-- Incrementing one labelled counter raises the total by exactly one. -/
theorem totalC_incC (cs : Counters) (k : String × String) :
    totalC (incC cs k) = totalC cs + 1 := by
  induction cs with
  | nil => rfl
  | cons p ps ih =>
    by_cases h : p.1 == k <;> simp [incC, totalC, h, ih] <;> omega

/-- Incrementing one labelled counter raises that label's value by one. -/
theorem getC_incC_same (cs : Counters) (k : String × String) :
    getC (incC cs k) k = getC cs k + 1 := by
  induction cs with
  | nil => simp [incC, getC]
  | cons p ps ih =>
    by_cases h : p.1 == k <;> simp [incC, getC, h, ih]

/-- C3: Every request whose first matching registration is gated by
`requireAuth()` and that carries no valid bearer credential is answered with
status 401 and is never proxied: the counters are unchanged. -/
theorem gated_unauthenticated_401_no_proxy
    (tokens : List (String × Identity)) (upstreamStatus : Nat)
    (req : Request) (cs : Counters)
    (hg : isGated req.segments = true)
    (ha : authenticate tokens req.cred = none) :
    gatewayDispatch tokens upstreamStatus req cs = (401, cs) := by
  unfold isGated at hg
  unfold gatewayDispatch
  cases hm : findMount gatewayMounts req.segments with
  | none => rw [hm] at hg; simp at hg
  | some m =>
    rw [hm] at hg
    simp only [] at hg
    simp [runMount, hg, ha]

/-- Witness for C3: an uncredentialed GET to /api/courses/1 yields 401 with
counters untouched. -/
theorem gated_unauthenticated_401_no_proxy_witness :
    gatewayDispatch [] 200 (Request.mk "GET" ["api", "courses", "1"] none) [] = (401, []) :=
  gated_unauthenticated_401_no_proxy [] 200
    (Request.mk "GET" ["api", "courses", "1"] none) [] (by decide) rfl

/-- C4: On a role-gated registration (professor on /api/courses), an
authenticated identity without the required role gets 403 on every write
method (POST/PUT/PATCH/DELETE) and the request is never forwarded, while the
safe read methods GET/HEAD/OPTIONS are proxied without the role. -/
theorem role_gate_write_403_safe_methods_pass
    (tokens : List (String × Identity)) (upstreamStatus : Nat)
    (req : Request) (cs : Counters) (m : RouteMount) (role : String) (id : Identity)
    (hm : findMount gatewayMounts req.segments = some m)
    (hauth : m.requiresAuth = true)
    (hrole : m.roleForWrite = some role)
    (ha : authenticate tokens req.cred = some id)
    (hnorole : id.role ≠ some role) :
    (writeMethods.contains req.method = true →
      gatewayDispatch tokens upstreamStatus req cs = (403, cs)) ∧
    (req.method = "GET" ∨ req.method = "HEAD" ∨ req.method = "OPTIONS" →
      gatewayDispatch tokens upstreamStatus req cs =
        (upstreamStatus,
          incC cs ((m.handler (req.segments.drop m.mountSegs.length)).service,
            req.method))) := by
  constructor
  · intro hw
    have hmemw : req.method ∈ writeMethods := by simpa using hw
    have hra : roleAllowed role id req.method = false := by
      simp [roleAllowed, hmemw, hnorole]
    simp [gatewayDispatch, hm, runMount, hauth, ha, hrole, hra]
  · intro hsafe
    have hw : writeMethods.contains req.method = false := by
      rcases hsafe with h | h | h <;> rw [h] <;> decide
    have hnotmem : req.method ∉ writeMethods := by simpa using hw
    have hra : roleAllowed role id req.method = true := by
      simp [roleAllowed, hnotmem]
    simp [gatewayDispatch, hm, runMount, hauth, ha, hrole, hra]

/-- Witness for C4: a student identity gets 403 on POST /api/courses/1 with
no counter change, and is proxied on GET /api/courses/1. -/
theorem role_gate_write_403_safe_methods_pass_witness :
    gatewayDispatch [("t", Identity.mk "u1" (some "student"))] 204
      (Request.mk "POST" ["api", "courses", "1"] (some "t")) [] = (403, []) ∧
    gatewayDispatch [("t", Identity.mk "u1" (some "student"))] 204
      (Request.mk "GET" ["api", "courses", "1"] (some "t")) [] =
      (204, [(("courses", "GET"), 1)]) :=
  ⟨(role_gate_write_403_safe_methods_pass
      [("t", Identity.mk "u1" (some "student"))] 204
      (Request.mk "POST" ["api", "courses", "1"] (some "t")) []
      (RouteMount.mk ["api", "courses"] true (some "professor") (fun _ => coursesProxy))
      "professor" (Identity.mk "u1" (some "student"))
      rfl rfl rfl rfl (by decide)).1 (by decide),
   (role_gate_write_403_safe_methods_pass
      [("t", Identity.mk "u1" (some "student"))] 204
      (Request.mk "GET" ["api", "courses", "1"] (some "t")) []
      (RouteMount.mk ["api", "courses"] true (some "professor") (fun _ => coursesProxy))
      "professor" (Identity.mk "u1" (some "student"))
      rfl rfl rfl rfl (by decide)).2 (Or.inl rfl)⟩

/-- C9: Every request under /api/videos is forwarded to the video-upload
backend with no authentication gate: even with no credential it is proxied
(counter incremented, upstream status relayed) rather than rejected with 401,
and every other registration in the routing table is gated by
`requireAuth()`. -/
theorem videos_unauthenticated_proxied
    (tokens : List (String × Identity)) (upstreamStatus : Nat)
    (method : String) (rest : List String) (cs : Counters) :
    gatewayDispatch tokens upstreamStatus
      (Request.mk method ("api" :: "videos" :: rest) none) cs =
      (upstreamStatus, incC cs ("video-upload", method)) ∧
    gatewayMounts.all
      (fun m => m.mountSegs == ["api", "videos"] || m.requiresAuth) = true := by
  exact ⟨rfl, rfl⟩

/-- C10: Every dispatched request is handled by at most one backend (the
counter total grows by at most one), and although /api/transcriptions is
registered twice, only the first registration (index 3) ever matches; an
authenticated transcriptions request increments the transcriptions counter
exactly once. -/
theorem single_dispatch_first_mount_wins
    (tokens : List (String × Identity)) (upstreamStatus : Nat)
    (req : Request) (cs : Counters) (id : Identity) (rest : List String)
    (hseg : req.segments = "api" :: "transcriptions" :: rest)
    (ha : authenticate tokens req.cred = some id) :
    (∀ req2 : Request, ∀ cs2 : Counters,
      totalC (gatewayDispatch tokens upstreamStatus req2 cs2).2 ≤ totalC cs2 + 1) ∧
    findMountIdx gatewayMounts req.segments = some 3 ∧
    gatewayDispatch tokens upstreamStatus req cs =
      (upstreamStatus, incC cs ("transcriptions", req.method)) ∧
    getC (gatewayDispatch tokens upstreamStatus req cs).2 ("transcriptions", req.method) =
      getC cs ("transcriptions", req.method) + 1 := by
  have hfm : findMount gatewayMounts req.segments =
      some (RouteMount.mk ["api", "transcriptions"] true none
        (fun _ => transcriptionsProxy)) := by
    rw [hseg]; rfl
  have hdisp : gatewayDispatch tokens upstreamStatus req cs =
      (upstreamStatus, incC cs ("transcriptions", req.method)) := by
    simp [gatewayDispatch, hfm, runMount, ha, transcriptionsProxy]
  refine ⟨?_, ?_, hdisp, ?_⟩
  · intro req2 cs2
    unfold gatewayDispatch
    cases hm2 : findMount gatewayMounts req2.segments with
    | none => simp
    | some m2 =>
      unfold runMount
      cases hra : m2.requiresAuth with
      | false => simp [hra, totalC_incC]
      | true =>
        cases ha2 : authenticate tokens req2.cred with
        | none => simp [hra, ha2]
        | some id2 =>
          cases hrf : m2.roleForWrite with
          | none => simp [hra, ha2, hrf, totalC_incC]
          | some role2 =>
            cases hall : roleAllowed role2 id2 req2.method <;>
              simp [hra, ha2, hrf, hall, totalC_incC]
  · rw [hseg]; rfl
  · rw [hdisp]
    exact getC_incC_same cs ("transcriptions", req.method)

/-- Witness for C10: a credentialed GET to /api/transcriptions/7 is handled
by the first of the two /api/transcriptions registrations and bumps the
transcriptions counter from 0 to 1. -/
theorem single_dispatch_first_mount_wins_witness :
    findMountIdx gatewayMounts ["api", "transcriptions", "7"] = some 3 ∧
    gatewayDispatch [("t", Identity.mk "u" none)] 200
      (Request.mk "GET" ["api", "transcriptions", "7"] (some "t")) [] =
      (200, [(("transcriptions", "GET"), 1)]) :=
  ⟨(single_dispatch_first_mount_wins [("t", Identity.mk "u" none)] 200
      (Request.mk "GET" ["api", "transcriptions", "7"] (some "t")) []
      (Identity.mk "u" none) ["7"] rfl rfl).2.1,
   (single_dispatch_first_mount_wins [("t", Identity.mk "u" none)] 200
      (Request.mk "GET" ["api", "transcriptions", "7"] (some "t")) []
      (Identity.mk "u" none) ["7"] rfl rfl).2.2.1⟩

/-- A required environment read fails on an absent or empty variable. -/
theorem env_required_missing (e : String → Option String) (name : String)
    (h : e name = none ∨ e name = some "") :
    env e name none = Except.error ("Missing env: " ++ name) := by
  rcases h with h | h <;> simp [env, h]

/-- A successful bind in `Except` means the first computation succeeded. -/
theorem exceptOk_bind {α β : Type} (x : Except String α) (f : α → Except String β)
    (h : exceptOk (x >>= f) = true) :
    ∃ a, x = Except.ok a ∧ exceptOk (f a) = true := by
  cases x with
  | ok a => exact ⟨a, rfl, h⟩
  | error msg => simp [exceptOk, Bind.bind, Except.bind] at h

/-- C6: If any required backend URL or the required forum token is absent or
empty in the environment, startup configuration loading fails (the error is
raised eagerly, before the app exists), and consequently no request is ever
served: the gateway never starts and then fails per-request. -/
theorem missing_env_fatal_startup (e : String → Option String) (name : String)
    (hmem : name ∈ requiredEnvVars)
    (hmiss : e name = none ∨ e name = some "") :
    exceptOk (loadConfig e) = false ∧
    ∀ tokens upstreamStatus req cs,
      serveRequest (loadConfig e) tokens upstreamStatus req cs = none := by
  have herr : env e name none = Except.error ("Missing env: " ++ name) :=
    env_required_missing e name hmiss
  have hko : exceptOk (loadConfig e) = false := by
    by_contra hc
    have h : exceptOk (loadConfig e) = true := by
      cases hx : exceptOk (loadConfig e) <;> simp_all
    unfold loadConfig at h
    obtain ⟨p0, h0, h⟩ := exceptOk_bind _ _ h
    obtain ⟨v1, h1, h⟩ := exceptOk_bind _ _ h
    obtain ⟨v2, h2, h⟩ := exceptOk_bind _ _ h
    obtain ⟨v3, h3, h⟩ := exceptOk_bind _ _ h
    obtain ⟨v4, h4, h⟩ := exceptOk_bind _ _ h
    obtain ⟨v5, h5, h⟩ := exceptOk_bind _ _ h
    obtain ⟨v6, h6, h⟩ := exceptOk_bind _ _ h
    obtain ⟨v7, h7, h⟩ := exceptOk_bind _ _ h
    fin_cases hmem <;> simp_all
  refine ⟨hko, fun tokens upstreamStatus req cs => ?_⟩
  cases hx : loadConfig e with
  | ok c => rw [hx] at hko; simp [exceptOk] at hko
  | error msg => simp [serveRequest, hx]

/-- Witness for C6: with an empty environment, configuration loading fails
and no request is served. -/
theorem missing_env_fatal_startup_witness :
    exceptOk (loadConfig (fun _ => none)) = false ∧
    ∀ tokens upstreamStatus req cs,
      serveRequest (loadConfig (fun _ => none)) tokens upstreamStatus req cs = none :=
  missing_env_fatal_startup (fun _ => none) "COURSES_URL" (by decide) (Or.inl rfl)

end SvcGateway
